import Mathlib

/-!
Verification of the asynchronous job-polling client of the muse-eval
repository.  The definitions below are a shallow embedding of the Python
sources:

* `muse_edit_image_tool.py` — the MUSE edition of the Open WebUI tool
  (`Tools.edit_image`, `detect_image_mime`, `extract_images_from_messages`);
* `replicate_qwen_image_edit.py` — the earlier (v0.2) edition of the same
  tool, which differs in the data-URI media type it attaches and in its
  progress-reporting cadence.

HTTP traffic is modelled by explicit streams of responses: the creation
call receives one `CreateResult`, and the polling loop reads a stream
`Nat → PollResult`.  A network exception raised by `aiohttp`
(`aiohttp.ClientError`) is the `exn` constructor; it is caught only by the
`except` handler that wraps the whole `edit_image` body.  The polling loop
is embedded with an explicit fuel argument (structural recursion); the
`fuelOut` exit marks executions that exceed the fuel and corresponds to
divergence of the Python loop, which is possible only when the polling
interval is zero.  The entry points pass fuel `max_wait_time + 1`, which is
proved sufficient whenever the polling interval is positive.
-/

namespace Muse

/-! ## Data model (spec section 3) -/

/-- Job states of the specification: `submitted`/`running` are non-terminal,
the other four are terminal. -/
inductive JobState where
  | submitted
  | running
  | succeeded
  | failed
  | canceled
  | timed_out
deriving DecidableEq, Repr

/-- Error kinds of the specification (spec section 7). -/
inductive ErrKind where
  | transport
  | rejected
  | remoteFailure
  | canceledK
  | timedOutK
deriving DecidableEq, Repr

/-- Structured error carried by an outcome: kind plus message. -/
structure JobError where
  kind : ErrKind
  message : String
deriving DecidableEq, Repr

/-- Normalized terminal result handed back to the caller. -/
structure JobOutcome where
  state : JobState
  artifacts : List String
  error : Option JobError
deriving DecidableEq, Repr

/-- The `output` field of a Replicate prediction response: absent/null, a
single URL string, or a list of URL strings
(`output[0] if isinstance(output, list) else output` in the sources). -/
inductive OutputField where
  | null
  | str (s : String)
  | list (l : List String)
deriving DecidableEq, Repr

/-- Python truthiness of the `output` field (`if not output`). -/
def OutputField.truthy : OutputField → Bool
  | .null => false
  | .str s => !(s = "")
  | .list l => !l.isEmpty

/-- `output[0] if isinstance(output, list) else output`; only evaluated by
the code after the truthiness check. -/
def OutputField.firstUrl : OutputField → String
  | .null => ""
  | .str s => s
  | .list [] => ""
  | .list (u :: _) => u

/-- The JSON body of a Replicate prediction (creation response and poll
response alike): `status`, `output`, `error`, `id` and `urls.get`.  `none`
models an absent (or JSON-null) field, matching the `.get` accesses in the
sources. -/
structure PredictionResponse where
  status : Option String
  output : OutputField
  error : Option String
  id : Option String
  urlsGet : Option String
deriving DecidableEq, Repr

/-- `status not in ("succeeded", "failed", "canceled")` — the loop guard of
both tool files.  A missing status is non-terminal. -/
def statusTerminal : Option String → Bool
  | none => false
  | some s => s = "succeeded" || s = "failed" || s = "canceled"

/-! ## Submission (`session.post` on the creation URL) -/

/-- Result of the single creation call: either `aiohttp` raised
(`ClientError`), or an HTTP response with a status code, a JSON body and a
raw text rendering (used by the error path `await resp.text()`). -/
inductive CreateResult where
  | exn (msg : String)
  | resp (httpStatus : Nat) (body : PredictionResponse) (text : String)
deriving DecidableEq, Repr

/-- Handle of a submitted job: `prediction_id` and the polling URL. -/
structure JobHandle where
  id : Option String
  locator : String
deriving DecidableEq, Repr

/-- What the submission step produces: a handle together with the initial
prediction body, or one of the two failure modes of the spec. -/
inductive SubmitResult where
  | ok (handle : JobHandle) (init : PredictionResponse)
  | transportError (msg : String)
  | rejected (httpStatus : Nat) (text : String)
deriving DecidableEq, Repr

/-- Python `f"{prediction_id}"` applied to an optional id (`None` prints as
`"None"`). -/
def optionIdString : Option String → String
  | some s => s
  | none => "None"

/-- The fallback polling URL
`f"https://api.replicate.com/v1/predictions/{prediction_id}"`. -/
def fallbackUrl (id : Option String) : String :=
  "https://api.replicate.com/v1/predictions/" ++ optionIdString id

/-- `result.get("urls", {}).get("get") or f".../predictions/{prediction_id}"` —
Python `or` takes the fallback when `urls.get` is absent or empty. -/
def predictionUrl (body : PredictionResponse) : String :=
  match body.urlsGet with
  | some u => if u = "" then fallbackUrl body.id else u
  | none => fallbackUrl body.id

/-- The creation call of `Tools.edit_image` (muse edition, lines 231-247):
one `session.post`; on a status outside `(200, 201)` it returns the error
immediately (`error_text[:200]`), otherwise it reads the JSON body and
forms the handle. -/
def submitOne : CreateResult → SubmitResult
  | .exn m => .transportError m
  | .resp code body text =>
      if code = 200 ∨ code = 201 then
        .ok { id := body.id, locator := predictionUrl body } body
      else
        .rejected code (text.take 200)

/-- Submission against a transport oracle, together with the number of
creation calls issued.  The source performs exactly one `session.post`,
whatever the response. -/
def submit (transport : Nat → CreateResult) : SubmitResult × Nat :=
  (submitOne (transport 0), 1)

/-! ## The polling loop (muse edition, lines 249-273) -/

/-- One status-check call (`session.get(prediction_url)`): either `aiohttp`
raised, or an HTTP response carrying a status code and a prediction body. -/
inductive PollResult where
  | exn (msg : String)
  | resp (httpStatus : Nat) (body : PredictionResponse)
deriving DecidableEq, Repr

/-- Mutable state of the polling loop: the last JSON body read (`result`),
`elapsed`, `last_status_update` and the number of progress events emitted
so far (the latter counts the `__event_emitter__` invocations inside the
loop). -/
structure LoopState where
  result : PredictionResponse
  elapsed : Nat
  lastStatusUpdate : Nat
  progressCount : Nat
deriving DecidableEq, Repr

/-- How the polling loop ends.  `timedOut` is the
`elapsed >= max_wait_time` return; `terminal` is a normal exit of the
`while`; `netError` is an `aiohttp.ClientError` raised by a poll and caught
by the handler wrapping the whole function body; `fuelOut` is the
embedding's marker for executions longer than the supplied fuel (the
Python loop diverges only when the polling interval is zero). -/
inductive LoopExit where
  | timedOut (st : LoopState)
  | terminal (st : LoopState)
  | netError (msg : String) (st : LoopState)
  | fuelOut (st : LoopState)
deriving DecidableEq, Repr

/-- The loop state an exit carries. -/
def LoopExit.exitState : LoopExit → LoopState
  | .timedOut st => st
  | .terminal st => st
  | .netError _ st => st
  | .fuelOut st => st

/-- State update for a successful (200) poll of the muse loop: read the new
body, advance `elapsed`, and emit a progress event when an emitter is
present and at least 5 time units passed since `last_status_update`
(`if __event_emitter__ and elapsed - last_status_update >= 5`). -/
def musePollStep (interval : Nat) (hasEmitter : Bool) (st : LoopState)
    (body : PredictionResponse) : LoopState :=
  let e := st.elapsed + interval
  let em := hasEmitter && decide (5 ≤ e - st.lastStatusUpdate)
  { result := body, elapsed := e,
    lastStatusUpdate := if em then e else st.lastStatusUpdate,
    progressCount := st.progressCount + (if em then 1 else 0) }

/-- State update for a successful (200) poll of the v0.2 loop: the progress
event fires on every poll whose reported status is `"processing"`
(`if __event_emitter__ and status == "processing"`), with no throttling. -/
def qwenPollStep (interval : Nat) (hasEmitter : Bool) (st : LoopState)
    (body : PredictionResponse) : LoopState :=
  { result := body, elapsed := st.elapsed + interval,
    lastStatusUpdate := st.lastStatusUpdate,
    progressCount := st.progressCount +
      (if hasEmitter && (body.status == some "processing") then 1 else 0) }

/-- The polling loop of `Tools.edit_image` in `muse_edit_image_tool.py`
(lines 252-273), fuel-indexed:

```python
while status not in ("succeeded", "failed", "canceled"):
    if elapsed >= self.valves.max_wait_time:
        return timeout
    await asyncio.sleep(self.valves.polling_interval)
    elapsed += self.valves.polling_interval
    async with session.get(prediction_url, headers=headers) as poll_resp:
        if poll_resp.status == 200:
            result = await poll_resp.json()
            status = result.get("status")
            if __event_emitter__ and elapsed - last_status_update >= 5:
                await __event_emitter__(...)
                last_status_update = elapsed
```

A poll answering with a non-200 status leaves `result`/`status` unchanged;
a poll raising `ClientError` escapes to the outer handler. -/
def museLoopFuel (polls : Nat → PollResult) (maxWait interval : Nat)
    (hasEmitter : Bool) : Nat → LoopState → Nat → LoopExit
  | 0, st, _ =>
    if statusTerminal st.result.status then .terminal st
    else if maxWait ≤ st.elapsed then .timedOut st
    else .fuelOut st
  | fuel + 1, st, k =>
    if statusTerminal st.result.status then .terminal st
    else if maxWait ≤ st.elapsed then .timedOut st
    else
      match polls k with
      | .exn m => .netError m { st with elapsed := st.elapsed + interval }
      | .resp code body =>
        if code = 200 then
          museLoopFuel polls maxWait interval hasEmitter fuel
            (musePollStep interval hasEmitter st body) (k + 1)
        else
          museLoopFuel polls maxWait interval hasEmitter fuel
            { st with elapsed := st.elapsed + interval } (k + 1)

/-- The polling loop of `Tools.edit_image` in `replicate_qwen_image_edit.py`
(lines 217-240).  Identical skeleton to the muse loop, but with the
unthrottled progress update of `qwenPollStep`. -/
def qwenLoopFuel (polls : Nat → PollResult) (maxWait interval : Nat)
    (hasEmitter : Bool) : Nat → LoopState → Nat → LoopExit
  | 0, st, _ =>
    if statusTerminal st.result.status then .terminal st
    else if maxWait ≤ st.elapsed then .timedOut st
    else .fuelOut st
  | fuel + 1, st, k =>
    if statusTerminal st.result.status then .terminal st
    else if maxWait ≤ st.elapsed then .timedOut st
    else
      match polls k with
      | .exn m => .netError m { st with elapsed := st.elapsed + interval }
      | .resp code body =>
        if code = 200 then
          qwenLoopFuel polls maxWait interval hasEmitter fuel
            (qwenPollStep interval hasEmitter st body) (k + 1)
        else
          qwenLoopFuel polls maxWait interval hasEmitter fuel
            { st with elapsed := st.elapsed + interval } (k + 1)

/-! ## Result handling (muse edition, lines 275-288) -/

/-- The distinguishable returns of `Tools.edit_image` after submission
(the formatted user-facing strings of the source, kept structured).
`divergent` is the image of a `fuelOut` loop exit. -/
inductive EditResult where
  | netError (msg : String)
  | apiError (httpStatus : Nat) (text : String)
  | timeout (elapsed : Nat) (maxWait : Nat) (id : Option String)
  | genFailed (msg : String)
  | canceled
  | noOutput
  | success (url : String)
  | divergent
deriving DecidableEq, Repr

/-- `f"⏰ Timeout after {max_wait_time}s. ID: {prediction_id}"`. -/
def timeoutMessage (maxWait : Nat) (id : Option String) : String :=
  "Timeout after " ++ toString maxWait ++ "s. ID: " ++ optionIdString id

/-- Lines 275-288 of `muse_edit_image_tool.py`:

```python
if status == "failed":
    error = result.get("error", "Unknown error")
    return f"❌ Generation failed: {error}"
if status == "canceled":
    return "❌ Generation canceled."
output = result.get("output")
if not output:
    return f"❌ No output. ..."
image_url = output[0] if isinstance(output, list) else output
```

applied to the loop exit (the `timedOut` exit is the in-loop timeout
return of line 254). -/
def handleLoopExit (maxWait : Nat) (pid : Option String) : LoopExit → EditResult
  | .netError m _ => .netError m
  | .fuelOut _ => .divergent
  | .timedOut st => .timeout st.elapsed maxWait pid
  | .terminal st =>
      if st.result.status = some "failed" then
        .genFailed (st.result.error.getD "Unknown error")
      else if st.result.status = some "canceled" then .canceled
      else if st.result.output.truthy then .success st.result.output.firstUrl
      else .noOutput

/-- The poll-to-completion phase of `Tools.edit_image`: run the loop from
`elapsed = 0` (fuel `max_wait_time + 1`, proved sufficient for any positive
interval) and interpret the exit. -/
def await_completion (polls : Nat → PollResult) (maxWait interval : Nat)
    (hasEmitter : Bool) (init : PredictionResponse) (pid : Option String) :
    EditResult :=
  handleLoopExit maxWait pid
    (museLoopFuel polls maxWait interval hasEmitter (maxWait + 1)
      { result := init, elapsed := 0, lastStatusUpdate := 0, progressCount := 0 } 0)

/-- The whole submit-then-poll pipeline of `Tools.edit_image`: the creation
call, then — on a 2xx response — the polling loop driven from the creation
body, polling the handle's locator. -/
def run (create : CreateResult) (polls : Nat → PollResult)
    (maxWait interval : Nat) (hasEmitter : Bool) : EditResult :=
  match submitOne create with
  | .transportError m => .netError m
  | .rejected code text => .apiError code text
  | .ok h init => await_completion polls maxWait interval hasEmitter init h.id

/-- Mapping of the source's returns onto the specification's `JobOutcome`.
Each non-success return is a failure outcome whose structured error keeps
the message the source embeds in its user-facing string; the canceled
return carries the fixed text `"Generation canceled."` (the source discards
the provider error there).  `divergent` maps to a non-terminal marker. -/
def outcomeOf : EditResult → JobOutcome
  | .netError m => ⟨.failed, [], some ⟨.transport, m⟩⟩
  | .apiError _ text => ⟨.failed, [], some ⟨.rejected, text⟩⟩
  | .timeout _ mw id => ⟨.timed_out, [], some ⟨.timedOutK, timeoutMessage mw id⟩⟩
  | .genFailed m => ⟨.failed, [], some ⟨.remoteFailure, m⟩⟩
  | .canceled => ⟨.canceled, [], some ⟨.canceledK, "Generation canceled."⟩⟩
  | .noOutput => ⟨.failed, [], some ⟨.remoteFailure, "No output"⟩⟩
  | .success url => ⟨.succeeded, [url], none⟩
  | .divergent => ⟨.running, [], none⟩

/-! ## Ghost recurrences for the loop's timing arithmetic -/

/-- Elapsed-time recurrence of the loop, ignoring the poll responses: the
loop adds `interval` per tick and stops at the first check where
`maxWait ≤ elapsed`.  `none` mirrors `fuelOut`. -/
def ghostElapsed (maxWait interval : Nat) : Nat → Nat → Option Nat
  | 0, e => if maxWait ≤ e then some e else none
  | f + 1, e =>
      if maxWait ≤ e then some e
      else ghostElapsed maxWait interval f (e + interval)

/-- Elapsed-time and progress-count recurrence of the muse loop for runs in
which every poll answers 200 with a non-terminal status: tracks
`(elapsed, last_status_update, progressCount)`. -/
def ghostProgress (maxWait interval : Nat) (hasEmitter : Bool) :
    Nat → Nat → Nat → Nat → Option (Nat × Nat)
  | 0, e, _, c => if maxWait ≤ e then some (e, c) else none
  | f + 1, e, l, c =>
      if maxWait ≤ e then some (e, c)
      else
        ghostProgress maxWait interval hasEmitter f (e + interval)
          (if hasEmitter && decide (5 ≤ e + interval - l) then e + interval else l)
          (c + (if hasEmitter && decide (5 ≤ e + interval - l) then 1 else 0))

/-- A poll stream in which the service answers every poll with an HTTP
response (no transport exception) and never reports a terminal state on a
readable (200) response. -/
def pollOkStream (polls : Nat → PollResult) : Prop :=
  ∀ j, ∃ code body, polls j = .resp code body ∧
    (code = 200 → statusTerminal body.status = false)

/-- A poll stream in which every poll answers 200 with a non-terminal
status. -/
def all200NonTerminal (polls : Nat → PollResult) : Prop :=
  ∀ j, ∃ body, polls j = .resp 200 body ∧ statusTerminal body.status = false

/-! ## Base64 decoding and MIME sniffing (`detect_image_mime`) -/

/-- Value of one character of the standard base64 alphabet. -/
def b64CharVal (c : Char) : Option Nat :=
  if 'A' ≤ c ∧ c ≤ 'Z' then some (c.toNat - 65)
  else if 'a' ≤ c ∧ c ≤ 'z' then some (c.toNat - 71)
  else if '0' ≤ c ∧ c ≤ '9' then some (c.toNat + 4)
  else if c = '+' then some 62
  else if c = '/' then some 63
  else none

/-- Decode a group of 2, 3 or 4 six-bit values into 1, 2 or 3 bytes
(low leftover bits are dropped, as in the CPython decoder's non-strict
mode). -/
def b64Group : List Nat → List Nat
  | [a, b] => [a * 4 + b / 16]
  | [a, b, c] => [a * 4 + b / 16, b % 16 * 16 + c / 4]
  | [a, b, c, d] => [a * 4 + b / 16, b % 16 * 16 + c / 4, c % 4 * 64 + d]
  | _ => []

/-- Decode a list of six-bit values, 4 at a time; a dangling single value
is an error. -/
def b64DecodeVals : List Nat → Option (List Nat)
  | [] => some []
  | [_] => none
  | [a, b] => some (b64Group [a, b])
  | [a, b, c] => some (b64Group [a, b, c])
  | a :: b :: c :: d :: rest =>
      match b64DecodeVals rest with
      | some tail => some (b64Group [a, b, c, d] ++ tail)
      | none => none

/-- Model of Python `base64.b64decode` in its default (non-validating)
mode: characters outside the alphabet and `'='` are discarded, the
remaining length must be a multiple of 4 (else `binascii.Error`), and
decoding stops at the first padding character.  `none` models the raised
`binascii.Error`. -/
def b64decode (s : String) : Option (List Nat) :=
  let kept := s.data.filter (fun c => (b64CharVal c).isSome || c = '=')
  if kept.length % 4 = 0 then
    b64DecodeVals ((kept.takeWhile (fun c => !(c = '='))).filterMap b64CharVal)
  else none

/-- `pattern` is a prefix of the byte list (Python `bytes.startswith`). -/
def bytesHavePrefix : List Nat → List Nat → Bool
  | _, [] => true
  | [], _ :: _ => false
  | a :: as, b :: bs => a = b && bytesHavePrefix as bs

/-- `pattern in bytes` — some contiguous run of the byte list equals the
pattern (Python `in` on `bytes`). -/
def bytesContainSeq : List Nat → List Nat → Bool
  | [], p => p.isEmpty
  | a :: as, p => bytesHavePrefix (a :: as) p || bytesContainSeq as p

/-- `detect_image_mime` of `muse_edit_image_tool.py` (lines 72-86): decode
the first 32 characters of the base64 payload and match magic numbers
(`\x89PNG`, `\xff\xd8\xff`, `GIF`, `RIFF`+`WEBP`); every failure —
including a decoding error, swallowed by the bare `except` — falls back to
`"image/png"`. -/
def detect_image_mime (base64_data : String) : String :=
  match b64decode (String.mk (base64_data.data.take 32)) with
  | none => "image/png"
  | some header =>
    if bytesHavePrefix header [137, 80, 78, 71] then "image/png"
    else if bytesHavePrefix header [255, 216, 255] then "image/jpeg"
    else if bytesHavePrefix header [71, 73, 70] then "image/gif"
    else if bytesHavePrefix header [82, 73, 70, 70] &&
            bytesContainSeq header [87, 69, 66, 80] then "image/webp"
    else "image/png"

/-- `s.startswith(p)` on Python strings. -/
def strHasPrefix (s p : String) : Bool :=
  bytesHavePrefix (s.data.map Char.toNat) (p.data.map Char.toNat)

/-- Image-slot value built by `Tools.edit_image` of
`muse_edit_image_tool.py` (lines 199-206): URLs pass through, inline
payloads are wrapped as `f"data:{mime};base64,{img}"` with `mime`
sniffed by `detect_image_mime`. -/
def museImageSlotValue (img : String) : String :=
  if strHasPrefix img "http" then img
  else "data:" ++ detect_image_mime img ++ ";base64," ++ img

/-- Image-slot value built by `Tools.edit_image` of
`replicate_qwen_image_edit.py` (line 175): always
`f"data:image/png;base64,{img_b64}"`, with no sniffing. -/
def qwenImageSlotValue (img : String) : String :=
  "data:image/png;base64," ++ img

/-! ## Chat-transcript image extraction (`extract_images_from_messages`) -/

/-- One entry of a message's `content` list.  `imageUrl u` models a dict
item with `type == "image_url"`; `u` is `item["image_url"]["url"]` when
`image_url` is a dict holding a string url, and `none` otherwise.  `other`
covers every other item (non-dicts and other types). -/
inductive MsgItem where
  | imageUrl (url : Option String)
  | other
deriving DecidableEq, Repr

/-- A message's `content`: a list of items, a plain string, or anything
else / absent (the source only iterates when `isinstance(content, list)`). -/
inductive MsgContent where
  | items (l : List MsgItem)
  | text (s : String)
  | absent
deriving DecidableEq, Repr

/-- One chat message: `message.get("role")` and `message.get("content")`. -/
structure Message where
  role : Option String
  content : MsgContent
deriving DecidableEq, Repr

/-- `url.split(",", 1)[1] if "," in url else url`. -/
def dataAfterComma (url : String) : String :=
  if url.data.contains ',' then
    String.mk ((url.data.dropWhile (fun c => !(c = ','))).drop 1)
  else url

/-- Classification of one url by lines 57-64 of `muse_edit_image_tool.py`:
data URIs contribute their base64 part, `http` urls pass through, anything
else is skipped. -/
def classifyUrl (url : String) : Option String :=
  if strHasPrefix url "data:image" then some (dataAfterComma url)
  else if strHasPrefix url "http" then some url
  else none

/-- The item-scanning loop of `extract_images_from_messages`
(muse edition): appends each recognised image and, after each
`image_url`-typed item, breaks once `len(base64_images) >= max_images`. -/
def collectImages (maxImages : Nat) : List MsgItem → List String → List String
  | [], acc => acc
  | .other :: rest, acc => collectImages maxImages rest acc
  | .imageUrl u? :: rest, acc =>
    let acc' :=
      match u? with
      | some u =>
          if u = "" then acc
          else
            match classifyUrl u with
            | some v => acc ++ [v]
            | none => acc
      | none => acc
    if maxImages ≤ acc'.length then acc'
    else collectImages maxImages rest acc'

/-- The reversed scan for the last message whose role is `"user"`. -/
def lastUserMessage (messages : List Message) : Option Message :=
  messages.reverse.find? (fun m => m.role == some "user")

/-- `extract_images_from_messages` of `muse_edit_image_tool.py`
(lines 31-69): find the last user message; if none, or its content is not
a list, return `[]`; otherwise scan its items. -/
def extract_images_from_messages (messages : List Message) (maxImages : Nat) :
    List String :=
  match lastUserMessage messages with
  | none => []
  | some m =>
    match m.content with
    | .items l => collectImages maxImages l []
    | _ => []

/-- The images one message's content contributes, in order, without the
cap: the straightforward filter over its items. -/
def itemImages (l : List MsgItem) : List String :=
  l.filterMap fun it =>
    match it with
    | .imageUrl (some u) => if u = "" then none else classifyUrl u
    | _ => none

/-- The images of a message's content (non-list content contributes
nothing). -/
def contentImages : MsgContent → List String
  | .items l => itemImages l
  | _ => []

/-! ## Concrete fixtures used by witnesses and counterexamples -/

/-- A poll body reporting the non-terminal state `"processing"`. -/
def processingBody : PredictionResponse :=
  { status := some "processing", output := .null, error := none,
    id := some "p1", urlsGet := none }

/-- A creation body reporting the initial state `"starting"`. -/
def startingBody : PredictionResponse :=
  { status := some "starting", output := .null, error := none,
    id := some "p1", urlsGet := some "https://api.replicate.com/v1/predictions/p1" }

/-- A poll body reporting `"succeeded"` with the given `output` field. -/
def succeededBody (o : OutputField) : PredictionResponse :=
  { status := some "succeeded", output := o, error := none,
    id := some "p1", urlsGet := none }

/-- First 32 base64 characters of a PNG file (decodes to the
`89 50 4E 47 0D 0A 1A 0A` signature and an IHDR chunk header). -/
def pngSample : String := "iVBORw0KGgoAAAANSUhEUgAAAAEAAAAB"

/-- First 32 base64 characters of a JPEG file (decodes to `FF D8 FF E0 ...`). -/
def jpegSample : String := "/9j/4AAQSkZJRgABAQAAAQABAAD/2wBD"

/-- Base64 of the 12-byte WEBP container header `RIFF....WEBP`. -/
def webpSample : String := "UklGRiQAAABXRUJQ"

/-- A poll body reporting `"failed"` with the provider error `"bad input"`. -/
def failedBadInputBody : PredictionResponse :=
  { status := some "failed", output := .null, error := some "bad input",
    id := some "p1", urlsGet := none }

/-- A poll body reporting `"canceled"` with a provider error message. -/
def canceledBody : PredictionResponse :=
  { status := some "canceled", output := .null, error := some "user canceled",
    id := some "p1", urlsGet := none }

/-- An earlier user message carrying an image (must be ignored by the
extractor). -/
def earlierUserMsg : Message :=
  { role := some "user", content := .items [.imageUrl (some "http://old/img.png")] }

/-- The last user message of the witness transcript: a data URI, a text
item, a remote URL and an unsupported scheme. -/
def lastUserMsg : Message :=
  { role := some "user",
    content := .items [.imageUrl (some "data:image/png;base64,AAAA"), .other,
      .imageUrl (some "http://h/x.png"), .imageUrl (some "ftp://no")] }

/-- A trailing assistant message (does not hide the last user message). -/
def assistantMsg : Message :=
  { role := some "assistant", content := .text "ok" }

/-! ## Helper lemmas -/

theorem fallbackUrl_ne_empty (id : Option String) : fallbackUrl id ≠ "" := by
  intro hcon
  have h1 : (fallbackUrl id).length =
      "https://api.replicate.com/v1/predictions/".length + (optionIdString id).length :=
    String.length_append _ _
  rw [hcon] at h1
  have h2 : 0 < "https://api.replicate.com/v1/predictions/".length := by decide
  have h3 : ("" : String).length = 0 := by decide
  rw [h3] at h1
  omega

theorem predictionUrl_ne_empty (body : PredictionResponse) : predictionUrl body ≠ "" := by
  rw [predictionUrl]
  cases hu : body.urlsGet with
  | none => exact fallbackUrl_ne_empty _
  | some u =>
    show (if u = "" then fallbackUrl body.id else u) ≠ ""
    by_cases h : u = ""
    · rw [if_pos h]
      exact fallbackUrl_ne_empty _
    · rw [if_neg h]
      exact h

/-- Fuel `maxWait - elapsed + 1` is enough for the muse loop whenever the
polling interval is positive: the `fuelOut` exit is unreachable. -/
theorem museLoopFuel_no_fuelOut (polls : Nat → PollResult) (maxWait interval : Nat)
    (hasEmitter : Bool) (hpos : 0 < interval) :
    ∀ fuel st k, maxWait - st.elapsed < fuel →
      ∀ st', museLoopFuel polls maxWait interval hasEmitter fuel st k ≠ .fuelOut st' := by
  intro fuel
  induction fuel with
  | zero => intro st k h st'; omega
  | succ f ih =>
    intro st k h st'
    rw [museLoopFuel]
    by_cases h1 : statusTerminal st.result.status
    · simp [h1]
    · by_cases h2 : maxWait ≤ st.elapsed
      · simp [h1, h2]
      · simp only [h1, h2, Bool.false_eq_true, if_false]
        cases hp : polls k with
        | exn m => simp
        | resp code body =>
          by_cases h3 : code = 200
          · simp only [h3, if_true]
            exact ih (musePollStep interval hasEmitter st body) (k + 1)
              (by simp only [musePollStep]; omega) st'
          · simp only [h3, if_false]
            exact ih { st with elapsed := st.elapsed + interval } (k + 1)
              (by simp only []; omega) st'

/-- Against a stream of HTTP responses that never report a terminal state
(`pollOkStream`), the muse loop follows the `ghostElapsed` recurrence and,
when the recurrence completes, exits with `timedOut` at exactly the
recurrence's elapsed value. -/
theorem museLoopFuel_ghostElapsed (polls : Nat → PollResult) (maxWait interval : Nat)
    (hasEmitter : Bool) (hok : pollOkStream polls) :
    ∀ fuel st k, statusTerminal st.result.status = false →
      ∀ e, ghostElapsed maxWait interval fuel st.elapsed = some e →
        ∃ st', museLoopFuel polls maxWait interval hasEmitter fuel st k = .timedOut st' ∧
          st'.elapsed = e := by
  intro fuel
  induction fuel with
  | zero =>
    intro st k h1 e hg
    rw [ghostElapsed] at hg
    by_cases h2 : maxWait ≤ st.elapsed
    · simp only [h2, if_true, Option.some.injEq] at hg
      exact ⟨st, by rw [museLoopFuel]; simp [h1, h2], hg⟩
    · simp [h2] at hg
  | succ f ih =>
    intro st k h1 e hg
    rw [ghostElapsed] at hg
    by_cases h2 : maxWait ≤ st.elapsed
    · simp only [h2, if_true, Option.some.injEq] at hg
      exact ⟨st, by rw [museLoopFuel]; simp [h1, h2], hg⟩
    · simp only [h2, if_false] at hg
      obtain ⟨code, body, hp, hnt⟩ := hok k
      rw [museLoopFuel]
      simp only [h1, h2, Bool.false_eq_true, if_false, hp]
      by_cases h3 : code = 200
      · subst h3
        simp only [if_true]
        exact ih (musePollStep interval hasEmitter st body) (k + 1)
          (by simp [musePollStep, hnt rfl]) e
          (by simpa [musePollStep] using hg)
      · simp only [h3, if_false]
        exact ih { st with elapsed := st.elapsed + interval } (k + 1) h1 e
          (by simpa using hg)

/-- Against a stream in which every poll answers 200 with a non-terminal
state, the muse loop follows the `ghostProgress` recurrence for both its
elapsed time and its progress-event count. -/
theorem museLoopFuel_ghostProgress (polls : Nat → PollResult) (maxWait interval : Nat)
    (hasEmitter : Bool) (hall : all200NonTerminal polls) :
    ∀ fuel st k, statusTerminal st.result.status = false →
      ∀ e c, ghostProgress maxWait interval hasEmitter fuel
          st.elapsed st.lastStatusUpdate st.progressCount = some (e, c) →
        ∃ st', museLoopFuel polls maxWait interval hasEmitter fuel st k = .timedOut st' ∧
          st'.elapsed = e ∧ st'.progressCount = c := by
  intro fuel
  induction fuel with
  | zero =>
    intro st k h1 e c hg
    rw [ghostProgress] at hg
    by_cases h2 : maxWait ≤ st.elapsed
    · simp only [h2, if_true, Option.some.injEq, Prod.mk.injEq] at hg
      exact ⟨st, by rw [museLoopFuel]; simp [h1, h2], hg.1, hg.2⟩
    · simp [h2] at hg
  | succ f ih =>
    intro st k h1 e c hg
    rw [ghostProgress] at hg
    by_cases h2 : maxWait ≤ st.elapsed
    · simp only [h2, if_true, Option.some.injEq, Prod.mk.injEq] at hg
      exact ⟨st, by rw [museLoopFuel]; simp [h1, h2], hg.1, hg.2⟩
    · simp only [h2, if_false] at hg
      obtain ⟨body, hp, hnt⟩ := hall k
      rw [museLoopFuel]
      simp only [h1, h2, Bool.false_eq_true, if_false, hp, if_true]
      exact ih (musePollStep interval hasEmitter st body) (k + 1)
        (by simp [musePollStep, hnt]) e c
        (by simpa [musePollStep] using hg)

/-- The `ghostElapsed` recurrence completes whenever the interval is
positive and the fuel exceeds the remaining wait. -/
theorem ghostElapsed_isSome (maxWait interval : Nat) (hpos : 0 < interval) :
    ∀ fuel e, maxWait - e < fuel →
      ∃ v, ghostElapsed maxWait interval fuel e = some v := by
  intro fuel
  induction fuel with
  | zero => intro e h; omega
  | succ f ih =>
    intro e h
    rw [ghostElapsed]
    by_cases h2 : maxWait ≤ e
    · exact ⟨e, by simp [h2]⟩
    · simpa [h2] using ih (e + interval) (by omega)

/-- Bounds on the elapsed value at which `ghostElapsed` completes: it lies
in `[maxWait, maxWait + interval)` provided the starting point does. -/
theorem ghostElapsed_bounds (maxWait interval : Nat) :
    ∀ fuel e v, e < maxWait + interval →
      ghostElapsed maxWait interval fuel e = some v →
      maxWait ≤ v ∧ v < maxWait + interval := by
  intro fuel
  induction fuel with
  | zero =>
    intro e v hlt hg
    rw [ghostElapsed] at hg
    by_cases h2 : maxWait ≤ e
    · simp only [h2, if_true, Option.some.injEq] at hg
      omega
    · simp [h2] at hg
  | succ f ih =>
    intro e v hlt hg
    rw [ghostElapsed] at hg
    by_cases h2 : maxWait ≤ e
    · simp only [h2, if_true, Option.some.injEq] at hg
      omega
    · simp only [h2, if_false] at hg
      exact ih (e + interval) v (by omega) hg

/-- When the first poll already reports a terminal state, the muse loop
performs exactly one tick and exits `terminal` with that body. -/
theorem museLoopFuel_first_terminal (polls : Nat → PollResult) (maxWait interval : Nat)
    (hasEmitter : Bool) (init b : PredictionResponse)
    (hinit : statusTerminal init.status = false) (hmw : 0 < maxWait)
    (hpoll : polls 0 = .resp 200 b) (hterm : statusTerminal b.status = true) :
    museLoopFuel polls maxWait interval hasEmitter (maxWait + 1)
        { result := init, elapsed := 0, lastStatusUpdate := 0, progressCount := 0 } 0 =
      .terminal (musePollStep interval hasEmitter
        { result := init, elapsed := 0, lastStatusUpdate := 0, progressCount := 0 } b) := by
  obtain ⟨m, rfl⟩ : ∃ m, maxWait = m + 1 := ⟨maxWait - 1, by omega⟩
  rw [museLoopFuel]
  simp only [hinit, Bool.false_eq_true, if_false, hpoll, Nat.not_succ_le_zero, if_true]
  rw [museLoopFuel]
  simp [musePollStep, hterm]

/-- `await_completion` when the first poll reports a terminal body. -/
theorem await_completion_first_poll (polls : Nat → PollResult) (maxWait interval : Nat)
    (hasEmitter : Bool) (init b : PredictionResponse) (pid : Option String)
    (hinit : statusTerminal init.status = false) (hmw : 0 < maxWait)
    (hpoll : polls 0 = .resp 200 b) (hterm : statusTerminal b.status = true) :
    await_completion polls maxWait interval hasEmitter init pid =
      handleLoopExit maxWait pid (.terminal (musePollStep interval hasEmitter
        { result := init, elapsed := 0, lastStatusUpdate := 0, progressCount := 0 } b)) := by
  rw [await_completion,
    museLoopFuel_first_terminal polls maxWait interval hasEmitter init b hinit hmw hpoll hterm]

/-- With a positive polling interval the pipeline never returns the
embedding's divergence marker. -/
theorem run_ne_divergent (create : CreateResult) (polls : Nat → PollResult)
    (maxWait interval : Nat) (hasEmitter : Bool) (hpos : 0 < interval) :
    run create polls maxWait interval hasEmitter ≠ .divergent := by
  rw [run]
  cases hs : submitOne create with
  | transportError m => simp
  | rejected c t => simp
  | ok h init =>
    unfold await_completion
    cases hexit : museLoopFuel polls maxWait interval hasEmitter (maxWait + 1)
        { result := init, elapsed := 0, lastStatusUpdate := 0, progressCount := 0 } 0 with
    | fuelOut st' =>
      exact absurd hexit
        (museLoopFuel_no_fuelOut polls maxWait interval hasEmitter hpos (maxWait + 1)
          { result := init, elapsed := 0, lastStatusUpdate := 0, progressCount := 0 } 0
          (by show maxWait - 0 < maxWait + 1; omega) st')
    | timedOut st => simp [hexit, handleLoopExit]
    | netError m st => simp [hexit, handleLoopExit]
    | terminal st =>
      simp only [hexit, handleLoopExit]
      split_ifs <;> simp

/-- The outcome invariant of spec section 3, by case analysis over every
non-divergent return of the pipeline. -/
theorem outcomeOf_invariant (res : EditResult) (hnd : res ≠ .divergent) :
    ((outcomeOf res).state = .succeeded ∨ (outcomeOf res).state = .failed ∨
      (outcomeOf res).state = .canceled ∨ (outcomeOf res).state = .timed_out) ∧
    ((outcomeOf res).state = .succeeded → (outcomeOf res).artifacts ≠ []) ∧
    ((outcomeOf res).state ≠ .succeeded →
      (outcomeOf res).artifacts = [] ∧ (outcomeOf res).error.isSome = true) := by
  cases res with
  | divergent => exact absurd rfl hnd
  | netError m => simp [outcomeOf]
  | apiError c t => simp [outcomeOf]
  | timeout e mw id => simp [outcomeOf]
  | genFailed m => simp [outcomeOf]
  | canceled => simp [outcomeOf]
  | noOutput => simp [outcomeOf]
  | success url => simp [outcomeOf]

theorem collectImages_cons_other (n : Nat) (rest : List MsgItem) (acc : List String) :
    collectImages n (.other :: rest) acc = collectImages n rest acc := by
  simp [collectImages]

theorem collectImages_cons_none (n : Nat) (rest : List MsgItem) (acc : List String) :
    collectImages n (.imageUrl none :: rest) acc =
      if n ≤ acc.length then acc else collectImages n rest acc := by
  simp [collectImages]

theorem collectImages_cons_blank (n : Nat) (rest : List MsgItem) (acc : List String)
    (u : String) (hu : u = "") :
    collectImages n (.imageUrl (some u) :: rest) acc =
      if n ≤ acc.length then acc else collectImages n rest acc := by
  simp [collectImages, hu]

theorem collectImages_cons_skip (n : Nat) (rest : List MsgItem) (acc : List String)
    (u : String) (hu : ¬ u = "") (hcl : classifyUrl u = none) :
    collectImages n (.imageUrl (some u) :: rest) acc =
      if n ≤ acc.length then acc else collectImages n rest acc := by
  simp [collectImages, hu, hcl]

theorem collectImages_cons_keep (n : Nat) (rest : List MsgItem) (acc : List String)
    (u v : String) (hu : ¬ u = "") (hcl : classifyUrl u = some v) :
    collectImages n (.imageUrl (some u) :: rest) acc =
      if n ≤ (acc ++ [v]).length then acc ++ [v]
      else collectImages n rest (acc ++ [v]) := by
  simp [collectImages, hu, hcl]

/-- The capped item scan equals a take of the uncapped image list. -/
theorem collectImages_eq (n : Nat) :
    ∀ (l : List MsgItem) (acc : List String), acc.length < n →
      collectImages n l acc = acc ++ (itemImages l).take (n - acc.length) := by
  intro l
  induction l with
  | nil => intro acc h; simp [collectImages, itemImages]
  | cons it rest ih =>
    intro acc h
    cases it with
    | other =>
      rw [collectImages_cons_other, ih acc h]
      simp [itemImages]
    | imageUrl u? =>
      cases u? with
      | none =>
        rw [collectImages_cons_none, if_neg (by omega : ¬ n ≤ acc.length), ih acc h]
        simp [itemImages]
      | some u =>
        by_cases hu : u = ""
        · rw [collectImages_cons_blank n rest acc u hu,
            if_neg (by omega : ¬ n ≤ acc.length), ih acc h]
          simp [itemImages, hu]
        · cases hcl : classifyUrl u with
          | none =>
            rw [collectImages_cons_skip n rest acc u hu hcl,
              if_neg (by omega : ¬ n ≤ acc.length), ih acc h]
            simp [itemImages, hu, hcl]
          | some v =>
            have himg : itemImages (.imageUrl (some u) :: rest) = v :: itemImages rest := by
              simp [itemImages, hu, hcl]
            rw [collectImages_cons_keep n rest acc u v hu hcl, himg]
            by_cases hfull : n ≤ (acc ++ [v]).length
            · rw [if_pos hfull]
              have hn : n - acc.length = 1 := by simp at hfull; omega
              rw [hn]
              simp
            · rw [if_neg hfull]
              rw [ih (acc ++ [v]) (by simp at hfull ⊢; omega)]
              have hn : n - acc.length = (n - (acc ++ [v]).length) + 1 := by
                simp at hfull ⊢; omega
              rw [hn, List.take_succ_cons]
              simp

/-- When no message has role `"user"`, the reversed scan finds nothing. -/
theorem lastUserMessage_eq_none (messages : List Message)
    (h : ∀ m ∈ messages, ¬ m.role = some "user") :
    lastUserMessage messages = none := by
  rw [lastUserMessage, List.find?_eq_none]
  intro m hm
  simpa using h m (List.mem_reverse.mp hm)

/-- The reversed scan finds the user message every later message fails the
role test for. -/
theorem lastUserMessage_eq_last (pre post : List Message) (m : Message)
    (hm : m.role = some "user") (hpost : ∀ m' ∈ post, ¬ m'.role = some "user") :
    lastUserMessage (pre ++ m :: post) = some m := by
  rw [lastUserMessage, List.reverse_append, List.reverse_cons, List.append_assoc,
    List.find?_append]
  have hnone : post.reverse.find? (fun m' => m'.role == some "user") = none := by
    rw [List.find?_eq_none]
    intro x hx
    simpa using hpost x (List.mem_reverse.mp hx)
  rw [hnone]
  simp [List.find?_cons, hm]

/-! ## Claims -/

/-- Claim C1: for every execution of the poll-to-completion phase in which
the remote service answers every poll but never reports a terminal state,
the polling loop terminates and returns the timeout outcome: its state is
`timed_out` with no artifacts, and the accumulated elapsed time at return
is at least the deadline and strictly less than the deadline plus one poll
interval (for the spec's instance `poll_interval = 1`, `deadline = 5`:
elapsed in `[5, 6)`). -/
theorem c1_deadline_respected (polls : Nat → PollResult) (maxWait interval : Nat)
    (hasEmitter : Bool) (init : PredictionResponse) (pid : Option String)
    (hpos : 0 < interval) (hok : pollOkStream polls)
    (hinit : statusTerminal init.status = false) :
    ∃ e, await_completion polls maxWait interval hasEmitter init pid =
        .timeout e maxWait pid ∧
      maxWait ≤ e ∧ e < maxWait + interval ∧
      (outcomeOf (.timeout e maxWait pid)).state = .timed_out ∧
      (outcomeOf (.timeout e maxWait pid)).artifacts = [] := by
  obtain ⟨v, hv⟩ := ghostElapsed_isSome maxWait interval hpos (maxWait + 1) 0 (by omega)
  obtain ⟨st', hst', hel⟩ := museLoopFuel_ghostElapsed polls maxWait interval hasEmitter hok
    (maxWait + 1) { result := init, elapsed := 0, lastStatusUpdate := 0, progressCount := 0 }
    0 hinit v hv
  have hb := ghostElapsed_bounds maxWait interval (maxWait + 1) 0 v (by omega) hv
  refine ⟨v, ?_, hb.1, hb.2, rfl, rfl⟩
  unfold await_completion
  rw [hst']
  simp only [handleLoopExit, hel]

/-- Witness for C1 at the spec's instance (interval 1, deadline 5) against
a service forever reporting `"processing"`. -/
theorem c1_deadline_respected_witness :
    ∃ e, await_completion (fun _ => .resp 200 processingBody) 5 1 false
        processingBody (some "p1") = .timeout e 5 (some "p1") ∧
      5 ≤ e ∧ e < 5 + 1 ∧
      (outcomeOf (.timeout e 5 (some "p1"))).state = .timed_out ∧
      (outcomeOf (.timeout e 5 (some "p1"))).artifacts = [] :=
  c1_deadline_respected (fun _ => .resp 200 processingBody) 5 1 false processingBody
    (some "p1") (by decide) (fun _ => ⟨200, processingBody, rfl, fun _ => by decide⟩)
    (by decide)

/-- Claim C2: submission either returns a handle with a non-empty
identifier (the id supplied by the 2xx creation response, non-empty by the
provider's interface contract) and a non-empty status-check locator, or
fails as a transport error or a rejection — never both; and on a non-2xx
response it fails at once, with exactly one creation call performed (no
retry). -/
theorem c2_submit_exclusive (transport : Nat → CreateResult)
    (hid : ∀ code body text, transport 0 = .resp code body text →
      (code = 200 ∨ code = 201) → ∃ i, body.id = some i ∧ i ≠ "") :
    (submit transport).2 = 1 ∧
    ((∃ h init, (submit transport).1 = .ok h init) ∨
      (∃ m, (submit transport).1 = .transportError m) ∨
      (∃ code text, (submit transport).1 = .rejected code text)) ∧
    (∀ h init m, (submit transport).1 = .ok h init →
      (submit transport).1 ≠ .transportError m) ∧
    (∀ h init code text, (submit transport).1 = .ok h init →
      (submit transport).1 ≠ .rejected code text) ∧
    (∀ h init, (submit transport).1 = .ok h init →
      h.locator ≠ "" ∧ ∃ i, h.id = some i ∧ i ≠ "") ∧
    (∀ code body text, transport 0 = .resp code body text →
      ¬(code = 200 ∨ code = 201) →
      (submit transport).1 = .rejected code (text.take 200)) := by
  refine ⟨rfl, ?_, ?_, ?_, ?_, ?_⟩
  · cases ht : transport 0 with
    | exn m => exact Or.inr (Or.inl ⟨m, by simp [submit, submitOne, ht]⟩)
    | resp code body text =>
      by_cases hc : code = 200 ∨ code = 201
      · exact Or.inl ⟨{ id := body.id, locator := predictionUrl body }, body,
          by simp [submit, submitOne, ht, hc]⟩
      · exact Or.inr (Or.inr ⟨code, text.take 200, by simp [submit, submitOne, ht, hc]⟩)
  · intro h init m hok heq
    rw [hok] at heq
    cases heq
  · intro h init code text hok heq
    rw [hok] at heq
    cases heq
  · intro h init hok
    cases ht : transport 0 with
    | exn m => simp [submit, submitOne, ht] at hok
    | resp code body text =>
      by_cases hc : code = 200 ∨ code = 201
      · simp only [submit, submitOne, ht, hc, if_true] at hok
        obtain ⟨hh, -⟩ := SubmitResult.ok.inj hok
        subst hh
        exact ⟨predictionUrl_ne_empty body, hid code body text ht hc⟩
      · simp [submit, submitOne, ht, hc] at hok
  · intro code body text ht hnc
    simp [submit, submitOne, ht, hnc]

/-- Witness for C2 on a 201 creation response carrying id `"p1"` and a
locator url. -/
theorem c2_submit_exclusive_witness :
    (submit (fun _ => .resp 201 startingBody "created")).2 = 1 ∧
    ∀ h init, (submit (fun _ => .resp 201 startingBody "created")).1 = .ok h init →
      h.locator ≠ "" ∧ ∃ i, h.id = some i ∧ i ≠ "" := by
  have h := c2_submit_exclusive (fun _ => .resp 201 startingBody "created")
    (fun code body text ht _ => by
      cases ht
      exact ⟨"p1", rfl, by decide⟩)
  exact ⟨h.1, h.2.2.2.2.1⟩

/-- Claim C4: with a positive polling interval, every outcome the pipeline
returns has a terminal state among succeeded, failed, canceled and
timed_out; a succeeded outcome has a non-empty artifact list; every other
outcome has an empty artifact list and a populated structured error. -/
theorem c4_outcome_invariants (create : CreateResult) (polls : Nat → PollResult)
    (maxWait interval : Nat) (hasEmitter : Bool) (hpos : 0 < interval) :
    run create polls maxWait interval hasEmitter ≠ .divergent ∧
    ((outcomeOf (run create polls maxWait interval hasEmitter)).state = .succeeded ∨
      (outcomeOf (run create polls maxWait interval hasEmitter)).state = .failed ∨
      (outcomeOf (run create polls maxWait interval hasEmitter)).state = .canceled ∨
      (outcomeOf (run create polls maxWait interval hasEmitter)).state = .timed_out) ∧
    ((outcomeOf (run create polls maxWait interval hasEmitter)).state = .succeeded →
      (outcomeOf (run create polls maxWait interval hasEmitter)).artifacts ≠ []) ∧
    ((outcomeOf (run create polls maxWait interval hasEmitter)).state ≠ .succeeded →
      (outcomeOf (run create polls maxWait interval hasEmitter)).artifacts = [] ∧
      (outcomeOf (run create polls maxWait interval hasEmitter)).error.isSome = true) := by
  have hnd := run_ne_divergent create polls maxWait interval hasEmitter hpos
  exact ⟨hnd, outcomeOf_invariant _ hnd⟩

/-- Witness for C4 on a 201 creation response and a service forever
reporting `"processing"` (a timed-out run). -/
theorem c4_outcome_invariants_witness :
    run (.resp 201 startingBody "created") (fun _ => .resp 200 processingBody)
        5 1 false ≠ .divergent ∧
    ((outcomeOf (run (.resp 201 startingBody "created")
        (fun _ => .resp 200 processingBody) 5 1 false)).state = .succeeded ∨
      (outcomeOf (run (.resp 201 startingBody "created")
        (fun _ => .resp 200 processingBody) 5 1 false)).state = .failed ∨
      (outcomeOf (run (.resp 201 startingBody "created")
        (fun _ => .resp 200 processingBody) 5 1 false)).state = .canceled ∨
      (outcomeOf (run (.resp 201 startingBody "created")
        (fun _ => .resp 200 processingBody) 5 1 false)).state = .timed_out) ∧
    ((outcomeOf (run (.resp 201 startingBody "created")
        (fun _ => .resp 200 processingBody) 5 1 false)).state = .succeeded →
      (outcomeOf (run (.resp 201 startingBody "created")
        (fun _ => .resp 200 processingBody) 5 1 false)).artifacts ≠ []) ∧
    ((outcomeOf (run (.resp 201 startingBody "created")
        (fun _ => .resp 200 processingBody) 5 1 false)).state ≠ .succeeded →
      (outcomeOf (run (.resp 201 startingBody "created")
        (fun _ => .resp 200 processingBody) 5 1 false)).artifacts = [] ∧
      (outcomeOf (run (.resp 201 startingBody "created")
        (fun _ => .resp 200 processingBody) 5 1 false)).error.isSome = true) :=
  c4_outcome_invariants (.resp 201 startingBody "created")
    (fun _ => .resp 200 processingBody) 5 1 false (by decide)

/-- Claim C5 counterexample: a poll that raises a network error
(`aiohttp.ClientError`) aborts the loop at once — the run against this
always-raising service ends as a network-error outcome after the first
tick, not by exhausting the deadline with `timed_out`. -/
theorem c5_counterexample_exn_aborts :
    await_completion (fun _ => .exn "connection reset") 5 1 false startingBody
        (some "p1") = .netError "connection reset" ∧
    ¬ (outcomeOf (await_completion (fun _ => .exn "connection reset") 5 1 false
        startingBody (some "p1"))).state = .timed_out := by
  constructor <;> decide

/-- Claim C5 amended: a poll answering a non-success HTTP status is
swallowed and retried next tick, consuming exactly one poll interval of
the deadline like any successful poll — any two services that answer every
poll without a terminal report (whatever mix of non-200 and 200 statuses)
drive the loop to the same `timed_out` exit at the same elapsed time, and
only the deadline ends such a run; a poll that raises a network error,
however, aborts the loop (see the counterexample). -/
theorem c5_amended_transient_polls (polls₁ polls₂ : Nat → PollResult)
    (maxWait interval : Nat) (he₁ he₂ : Bool) (init₁ init₂ : PredictionResponse)
    (hpos : 0 < interval) (hok₁ : pollOkStream polls₁) (hok₂ : pollOkStream polls₂)
    (hinit₁ : statusTerminal init₁.status = false)
    (hinit₂ : statusTerminal init₂.status = false) :
    ∃ st₁ st₂,
      museLoopFuel polls₁ maxWait interval he₁ (maxWait + 1)
        { result := init₁, elapsed := 0, lastStatusUpdate := 0, progressCount := 0 } 0 =
          .timedOut st₁ ∧
      museLoopFuel polls₂ maxWait interval he₂ (maxWait + 1)
        { result := init₂, elapsed := 0, lastStatusUpdate := 0, progressCount := 0 } 0 =
          .timedOut st₂ ∧
      st₁.elapsed = st₂.elapsed ∧ maxWait ≤ st₁.elapsed := by
  obtain ⟨v, hv⟩ := ghostElapsed_isSome maxWait interval hpos (maxWait + 1) 0 (by omega)
  obtain ⟨st₁, hst₁, hel₁⟩ := museLoopFuel_ghostElapsed polls₁ maxWait interval he₁ hok₁
    (maxWait + 1) { result := init₁, elapsed := 0, lastStatusUpdate := 0, progressCount := 0 }
    0 hinit₁ v hv
  obtain ⟨st₂, hst₂, hel₂⟩ := museLoopFuel_ghostElapsed polls₂ maxWait interval he₂ hok₂
    (maxWait + 1) { result := init₂, elapsed := 0, lastStatusUpdate := 0, progressCount := 0 }
    0 hinit₂ v hv
  have hb := ghostElapsed_bounds maxWait interval (maxWait + 1) 0 v (by omega) hv
  exact ⟨st₁, st₂, hst₁, hst₂, by rw [hel₁, hel₂], by rw [hel₁]; exact hb.1⟩

/-- Witness for C5's amended statement: a service answering every poll 503
and a service answering every poll 200/processing reach `timed_out` at the
same elapsed time. -/
theorem c5_amended_transient_polls_witness :
    ∃ st₁ st₂,
      museLoopFuel (fun _ => .resp 503 processingBody) 5 1 false (5 + 1)
        { result := startingBody, elapsed := 0, lastStatusUpdate := 0, progressCount := 0 } 0 =
          .timedOut st₁ ∧
      museLoopFuel (fun _ => .resp 200 processingBody) 5 1 false (5 + 1)
        { result := startingBody, elapsed := 0, lastStatusUpdate := 0, progressCount := 0 } 0 =
          .timedOut st₂ ∧
      st₁.elapsed = st₂.elapsed ∧ 5 ≤ st₁.elapsed :=
  c5_amended_transient_polls (fun _ => .resp 503 processingBody)
    (fun _ => .resp 200 processingBody) 5 1 false false startingBody startingBody
    (by decide)
    (fun _ => ⟨503, processingBody, rfl, fun hc => absurd hc (by decide)⟩)
    (fun _ => ⟨200, processingBody, rfl, fun _ => by decide⟩)
    (by decide) (by decide)

/-- Claim C3 counterexample: for a succeeded job whose `output` is the
two-element list, the outcome keeps only the first element
(`output[0] if isinstance(output, list) else output`) — the full ordered
list is not preserved. -/
theorem c3_counterexample_multi_list :
    (outcomeOf (await_completion
        (fun _ => .resp 200 (succeededBody (.list ["https://x/a.png", "https://x/b.png"])))
        5 1 false startingBody (some "p1"))).artifacts = ["https://x/a.png"] ∧
    ¬ (outcomeOf (await_completion
        (fun _ => .resp 200 (succeededBody (.list ["https://x/a.png", "https://x/b.png"])))
        5 1 false startingBody (some "p1"))).artifacts =
      ["https://x/a.png", "https://x/b.png"] := by
  constructor <;> decide

/-- Claim C3 amended: a succeeded response whose `output` is the single URL
string `u` and one whose `output` is a list headed by `u` yield the same
one-element artifact list `[u]`; a multi-element output list is truncated
to its first element rather than preserved in full. -/
theorem c3_amended_artifact_normalization (u : String) (rest : List String)
    (polls₁ polls₂ : Nat → PollResult) (b₁ b₂ : PredictionResponse)
    (maxWait interval : Nat) (hasEmitter : Bool) (init : PredictionResponse)
    (pid : Option String)
    (hu : ¬ u = "") (hmw : 0 < maxWait) (hinit : statusTerminal init.status = false)
    (h1 : polls₁ 0 = .resp 200 b₁) (hs1 : b₁.status = some "succeeded")
    (ho1 : b₁.output = .str u)
    (h2 : polls₂ 0 = .resp 200 b₂) (hs2 : b₂.status = some "succeeded")
    (ho2 : b₂.output = .list (u :: rest)) :
    (outcomeOf (await_completion polls₁ maxWait interval hasEmitter init pid)).artifacts
        = [u] ∧
    (outcomeOf (await_completion polls₂ maxWait interval hasEmitter init pid)).artifacts
        = [u] := by
  constructor
  · rw [await_completion_first_poll polls₁ maxWait interval hasEmitter init b₁ pid hinit
      hmw h1 (by rw [hs1]; decide)]
    simp [handleLoopExit, musePollStep, hs1, ho1, outcomeOf, OutputField.truthy,
      OutputField.firstUrl, hu]
  · rw [await_completion_first_poll polls₂ maxWait interval hasEmitter init b₂ pid hinit
      hmw h2 (by rw [hs2]; decide)]
    simp [handleLoopExit, musePollStep, hs2, ho2, outcomeOf, OutputField.truthy,
      OutputField.firstUrl]

/-- Witness for C3's amended statement at the spec's url: both the string
form and the singleton-list form yield `["https://x/a.png"]`. -/
theorem c3_amended_artifact_normalization_witness :
    (outcomeOf (await_completion (fun _ => .resp 200 (succeededBody (.str "https://x/a.png")))
        5 1 false startingBody (some "p1"))).artifacts = ["https://x/a.png"] ∧
    (outcomeOf (await_completion (fun _ => .resp 200 (succeededBody (.list ["https://x/a.png"])))
        5 1 false startingBody (some "p1"))).artifacts = ["https://x/a.png"] :=
  c3_amended_artifact_normalization "https://x/a.png" []
    (fun _ => .resp 200 (succeededBody (.str "https://x/a.png")))
    (fun _ => .resp 200 (succeededBody (.list ["https://x/a.png"])))
    (succeededBody (.str "https://x/a.png")) (succeededBody (.list ["https://x/a.png"]))
    5 1 false startingBody (some "p1")
    (by decide) (by decide) (by decide) rfl rfl rfl rfl rfl rfl

/-- Claim C8 counterexample: a job canceled remotely with provider error
`"user canceled"` yields an outcome whose structured error carries the
fixed text `"Generation canceled."` — the provider-supplied message is
discarded, contrary to the claim's verbatim-surfacing for `canceled`. -/
theorem c8_counterexample_canceled_discards :
    (outcomeOf (await_completion (fun _ => .resp 200 canceledBody) 5 1 false
        startingBody (some "p1"))).error =
      some { kind := .canceledK, message := "Generation canceled." } ∧
    ¬ Option.map JobError.message
        (outcomeOf (await_completion (fun _ => .resp 200 canceledBody) 5 1 false
          startingBody (some "p1"))).error = some "user canceled" := by
  constructor <;> decide

/-- Claim C8 amended: a job whose remote terminal state is `failed`
surfaces the provider error message verbatim in the outcome's structured
error (`bad input` stays `bad input`); a job whose remote terminal state is
`canceled` gets the fixed message `"Generation canceled."` instead of the
provider text. -/
theorem c8_amended_error_surfacing (polls₁ polls₂ : Nat → PollResult)
    (b₁ b₂ : PredictionResponse) (m₁ m₂ : String) (maxWait interval : Nat)
    (hasEmitter : Bool) (init : PredictionResponse) (pid : Option String)
    (hmw : 0 < maxWait) (hinit : statusTerminal init.status = false)
    (h1 : polls₁ 0 = .resp 200 b₁) (hs1 : b₁.status = some "failed")
    (he1 : b₁.error = some m₁)
    (h2 : polls₂ 0 = .resp 200 b₂) (hs2 : b₂.status = some "canceled")
    (he2 : b₂.error = some m₂) :
    ((outcomeOf (await_completion polls₁ maxWait interval hasEmitter init pid)).state
        = .failed ∧
      (outcomeOf (await_completion polls₁ maxWait interval hasEmitter init pid)).error
        = some { kind := .remoteFailure, message := m₁ }) ∧
    ((outcomeOf (await_completion polls₂ maxWait interval hasEmitter init pid)).state
        = .canceled ∧
      (outcomeOf (await_completion polls₂ maxWait interval hasEmitter init pid)).error
        = some { kind := .canceledK, message := "Generation canceled." }) := by
  constructor
  · rw [await_completion_first_poll polls₁ maxWait interval hasEmitter init b₁ pid hinit
      hmw h1 (by rw [hs1]; decide)]
    simp [handleLoopExit, musePollStep, hs1, he1, outcomeOf]
  · rw [await_completion_first_poll polls₂ maxWait interval hasEmitter init b₂ pid hinit
      hmw h2 (by rw [hs2]; decide)]
    simp [handleLoopExit, musePollStep, hs2, he2, outcomeOf]

/-- Witness for C8's amended statement at the spec's instance: a poll
sequence ending `failed` with `error = "bad input"` yields a failed outcome
whose error message is exactly `"bad input"`. -/
theorem c8_amended_error_surfacing_witness :
    ((outcomeOf (await_completion (fun _ => .resp 200 failedBadInputBody) 5 1 false
        startingBody (some "p1"))).state = .failed ∧
      (outcomeOf (await_completion (fun _ => .resp 200 failedBadInputBody) 5 1 false
        startingBody (some "p1"))).error =
          some { kind := .remoteFailure, message := "bad input" }) ∧
    ((outcomeOf (await_completion (fun _ => .resp 200 canceledBody) 5 1 false
        startingBody (some "p1"))).state = .canceled ∧
      (outcomeOf (await_completion (fun _ => .resp 200 canceledBody) 5 1 false
        startingBody (some "p1"))).error =
          some { kind := .canceledK, message := "Generation canceled." }) :=
  c8_amended_error_surfacing (fun _ => .resp 200 failedBadInputBody)
    (fun _ => .resp 200 canceledBody) failedBadInputBody canceledBody
    "bad input" "user canceled" 5 1 false startingBody (some "p1")
    (by decide) (by decide) rfl rfl rfl rfl rfl rfl

/-- Claim C6 counterexample: in `replicate_qwen_image_edit.py` the data URI
attached for an inline payload whose decoded header starts `FF D8 FF`
carries media type `image/png`, not the sniffed `image/jpeg` — the media
type there is not sniffed from the header bytes. -/
theorem c6_counterexample_qwen_hardcoded_png :
    detect_image_mime jpegSample = "image/jpeg" ∧
    qwenImageSlotValue jpegSample = "data:image/png;base64," ++ jpegSample ∧
    ¬ qwenImageSlotValue jpegSample =
      "data:" ++ detect_image_mime jpegSample ++ ";base64," ++ jpegSample := by
  refine ⟨by decide, rfl, by decide⟩

/-- Claim C6 amended (muse edition): `detect_image_mime` sniffs the decoded
header bytes — `89 50 4E 47` gives `image/png`, `FF D8 FF` gives
`image/jpeg`, `GIF` gives `image/gif`, `RIFF` with a `WEBP` tag gives
`image/webp`, and anything else defaults to `image/png` — and
`muse_edit_image_tool.py` attaches exactly that sniffed type to the data
URI of each non-URL payload; `replicate_qwen_image_edit.py` instead always
attaches `image/png` (see the counterexample). -/
theorem c6_amended_mime_sniffing (img : String) (header : List Nat)
    (hdec : b64decode (String.mk (img.data.take 32)) = some header) :
    (bytesHavePrefix header [137, 80, 78, 71] = true →
      detect_image_mime img = "image/png") ∧
    (bytesHavePrefix header [137, 80, 78, 71] = false →
      bytesHavePrefix header [255, 216, 255] = true →
      detect_image_mime img = "image/jpeg") ∧
    (bytesHavePrefix header [137, 80, 78, 71] = false →
      bytesHavePrefix header [255, 216, 255] = false →
      bytesHavePrefix header [71, 73, 70] = true →
      detect_image_mime img = "image/gif") ∧
    (bytesHavePrefix header [137, 80, 78, 71] = false →
      bytesHavePrefix header [255, 216, 255] = false →
      bytesHavePrefix header [71, 73, 70] = false →
      (bytesHavePrefix header [82, 73, 70, 70] &&
        bytesContainSeq header [87, 69, 66, 80]) = true →
      detect_image_mime img = "image/webp") ∧
    (bytesHavePrefix header [137, 80, 78, 71] = false →
      bytesHavePrefix header [255, 216, 255] = false →
      bytesHavePrefix header [71, 73, 70] = false →
      (bytesHavePrefix header [82, 73, 70, 70] &&
        bytesContainSeq header [87, 69, 66, 80]) = false →
      detect_image_mime img = "image/png") ∧
    (strHasPrefix img "http" = false →
      museImageSlotValue img = "data:" ++ detect_image_mime img ++ ";base64," ++ img) := by
  have hdet : detect_image_mime img =
      (if bytesHavePrefix header [137, 80, 78, 71] then "image/png"
      else if bytesHavePrefix header [255, 216, 255] then "image/jpeg"
      else if bytesHavePrefix header [71, 73, 70] then "image/gif"
      else if bytesHavePrefix header [82, 73, 70, 70] &&
              bytesContainSeq header [87, 69, 66, 80] then "image/webp"
      else "image/png") := by
    simp only [detect_image_mime, hdec]
  refine ⟨?_, ?_, ?_, ?_, ?_, ?_⟩
  · intro h1; simp [hdet, h1]
  · intro h1 h2; simp [hdet, h1, h2]
  · intro h1 h2 h3; simp [hdet, h1, h2, h3]
  · intro h1 h2 h3 h4; simp [hdet, h1, h2, h3, h4]
  · intro h1 h2 h3 h4; simp [hdet, h1, h2, h3, h4]
  · intro hh; simp [museImageSlotValue, hh]

/-- Witness for C6's amended statement on a real PNG header prefix. -/
theorem c6_amended_mime_sniffing_witness :
    detect_image_mime pngSample = "image/png" ∧
    museImageSlotValue pngSample =
      "data:" ++ detect_image_mime pngSample ++ ";base64," ++ pngSample := by
  have h := c6_amended_mime_sniffing pngSample
    [137, 80, 78, 71, 13, 10, 26, 10, 0, 0, 0, 13, 73, 72, 68, 82, 0, 0, 0, 1, 0, 0, 0, 1]
    (by decide)
  exact ⟨h.1 (by decide), h.2.2.2.2.2 (by decide)⟩

/-- Claim C7 counterexample: in `replicate_qwen_image_edit.py`, a 20-unit
non-terminal run at poll interval 1 with an emitter supplied fires the
progress event 20 times — once per `"processing"` poll — not approximately
4. -/
theorem c7_counterexample_qwen_unthrottled :
    (qwenLoopFuel (fun _ => .resp 200 processingBody) 20 1 true (20 + 1)
        { result := startingBody, elapsed := 0, lastStatusUpdate := 0, progressCount := 0 }
        0).exitState.progressCount = 20 ∧
    ¬ (qwenLoopFuel (fun _ => .resp 200 processingBody) 20 1 true (20 + 1)
        { result := startingBody, elapsed := 0, lastStatusUpdate := 0, progressCount := 0 }
        0).exitState.progressCount = 4 := by
  constructor <;> decide

/-- Claim C7 amended (muse edition): with an emitter supplied, poll
interval 1 and deadline 20, every run whose polls all answer 200 with a
non-terminal state times out at elapsed 20 having fired the progress event
exactly 4 times (at elapsed 5, 10, 15 and 20) — not 20 times. -/
theorem c7_amended_progress_throttled (polls : Nat → PollResult)
    (init : PredictionResponse) (hall : all200NonTerminal polls)
    (hinit : statusTerminal init.status = false) :
    ∃ st, museLoopFuel polls 20 1 true (20 + 1)
        { result := init, elapsed := 0, lastStatusUpdate := 0, progressCount := 0 } 0 =
      .timedOut st ∧ st.elapsed = 20 ∧ st.progressCount = 4 := by
  obtain ⟨st, hst, hel, hc⟩ := museLoopFuel_ghostProgress polls 20 1 true hall (20 + 1)
    { result := init, elapsed := 0, lastStatusUpdate := 0, progressCount := 0 } 0 hinit
    20 4 (by show ghostProgress 20 1 true (20 + 1) 0 0 0 = some (20, 4); decide)
  exact ⟨st, hst, hel, hc⟩

/-- Witness for C7's amended statement against a service forever reporting
`"processing"`. -/
theorem c7_amended_progress_throttled_witness :
    ∃ st, museLoopFuel (fun _ => .resp 200 processingBody) 20 1 true (20 + 1)
        { result := startingBody, elapsed := 0, lastStatusUpdate := 0, progressCount := 0 }
        0 = .timedOut st ∧ st.elapsed = 20 ∧ st.progressCount = 4 :=
  c7_amended_progress_throttled (fun _ => .resp 200 processingBody) startingBody
    (fun _ => ⟨processingBody, rfl, by decide⟩) (by decide)

/-- Claim C9: `extract_images_from_messages` draws images only from the
most recent user message — with no user message it returns `[]`, and when a
user message is followed only by non-user messages the result is exactly
that message's images in their original order, capped at the requested
maximum of 3 (so earlier messages contribute nothing, and a last user
message without image items yields `[]`). -/
theorem c9_extract_last_user_only (messages : List Message) :
    ((∀ m ∈ messages, ¬ m.role = some "user") →
      extract_images_from_messages messages 3 = []) ∧
    (∀ pre post m, messages = pre ++ m :: post → m.role = some "user" →
      (∀ m' ∈ post, ¬ m'.role = some "user") →
      extract_images_from_messages messages 3 = (contentImages m.content).take 3) := by
  constructor
  · intro h
    unfold extract_images_from_messages
    rw [lastUserMessage_eq_none messages h]
  · intro pre post m hsplit hm hpost
    subst hsplit
    unfold extract_images_from_messages
    rw [lastUserMessage_eq_last pre post m hm hpost]
    cases hc : m.content with
    | items l =>
      simp only [hc]
      rw [collectImages_eq 3 l [] (by decide)]
      simp [contentImages]
    | text s => simp [hc, contentImages]
    | absent => simp [hc, contentImages]

/-- Witness for C9 on a transcript with an earlier user image, a last user
message with three recognised images, and a trailing assistant message. -/
theorem c9_extract_last_user_only_witness :
    extract_images_from_messages [earlierUserMsg, lastUserMsg, assistantMsg] 3 =
      (contentImages lastUserMsg.content).take 3 ∧
    (contentImages lastUserMsg.content).take 3 = ["AAAA", "http://h/x.png"] := by
  have h := (c9_extract_last_user_only [earlierUserMsg, lastUserMsg, assistantMsg]).2
    [earlierUserMsg] [assistantMsg] lastUserMsg rfl rfl (by decide)
  exact ⟨h, by decide⟩

/-- Claim C10: `detect_image_mime` is total on arbitrary string input: it
always returns one of the four MIME strings, returns `"image/png"` whenever
base64 decoding of the 32-character prefix fails (the bare `except` path),
and returns `"image/png"` whenever the decoded header matches none of the
four magic-number tests. -/
theorem c10_detect_mime_total (s : String) :
    (detect_image_mime s = "image/png" ∨ detect_image_mime s = "image/jpeg" ∨
      detect_image_mime s = "image/gif" ∨ detect_image_mime s = "image/webp") ∧
    (b64decode (String.mk (s.data.take 32)) = none → detect_image_mime s = "image/png") ∧
    (∀ header, b64decode (String.mk (s.data.take 32)) = some header →
      bytesHavePrefix header [137, 80, 78, 71] = false →
      bytesHavePrefix header [255, 216, 255] = false →
      bytesHavePrefix header [71, 73, 70] = false →
      (bytesHavePrefix header [82, 73, 70, 70] &&
        bytesContainSeq header [87, 69, 66, 80]) = false →
      detect_image_mime s = "image/png") := by
  refine ⟨?_, ?_, ?_⟩
  · cases hdec : b64decode (String.mk (s.data.take 32)) with
    | none => exact Or.inl (by simp [detect_image_mime, hdec])
    | some header =>
      simp only [detect_image_mime, hdec]
      split_ifs <;> simp
  · intro hdec
    simp [detect_image_mime, hdec]
  · intro header hdec h1 h2 h3 h4
    simp [detect_image_mime, hdec, h1, h2, h3, h4]

/-- Witness for C10 on the non-base64 string `"A"` (its decode fails, so
the sniffer falls back to `"image/png"`). -/
theorem c10_detect_mime_total_witness :
    detect_image_mime "A" = "image/png" ∧
    (detect_image_mime "A" = "image/png" ∨ detect_image_mime "A" = "image/jpeg" ∨
      detect_image_mime "A" = "image/gif" ∨ detect_image_mime "A" = "image/webp") := by
  have h := c10_detect_mime_total "A"
  exact ⟨h.2.1 (by decide), h.1⟩

end Muse
